import Mathlib

/-!
Shallow embedding of `src/button_class.py` (the pygame `Button` widget):
its constructor defaults, surface/rect construction, face+shadow
composition, and the click-debounce timer. Host-framework pieces
(pygame surfaces, rects, the millisecond clock) are modelled as plain
data; timestamps are naturals (milliseconds), colors are integer tuples.
-/

namespace ButtonClass

/-- An RGB color triple, as the Python code stores it (plain ints). -/
abbrev Color3 := Int × Int × Int

/-- An RGBA color, as passed to `Surface.fill`. -/
abbrev Color4 := Int × Int × Int × Int

/-- A pygame RGB fill carries an implicit opaque alpha of 255. -/
def withAlpha (c : Color3) : Color4 := (c.1, c.2.1, c.2.2, 255)

/-- Python `int()` applied to a real value: truncation toward zero. -/
def pyInt (q : ℚ) : ℤ := if q < 0 then ⌈q⌉ else ⌊q⌋

/-- A pygame surface: its dimensions, whether it has an alpha channel
(`convert_alpha` vs `convert`), and the last color filled into it. -/
structure Surface where
  w : Int
  h : Int
  alpha : Bool
  fill : Option Color4
deriving DecidableEq, Repr

/-- A pygame rect: top-left corner plus width and height. -/
structure Rect where
  x : Int
  y : Int
  w : Int
  h : Int
deriving DecidableEq, Repr

/-- `surface.get_rect()`: the surface's rectangle at the default origin. -/
def Surface.getRect (s : Surface) : Rect :=
  { x := 0, y := 0, w := s.w, h := s.h }

def Rect.topleft (r : Rect) : Int × Int := (r.x, r.y)

def Rect.topright (r : Rect) : Int × Int := (r.x + r.w, r.y)

def Rect.bottomleft (r : Rect) : Int × Int := (r.x, r.y + r.h)

def Rect.bottomright (r : Rect) : Int × Int := (r.x + r.w, r.y + r.h)

def Rect.center (r : Rect) : Int × Int := (r.x + r.w / 2, r.y + r.h / 2)

def Rect.setTopleft (r : Rect) (p : Int × Int) : Rect :=
  { r with x := p.1, y := p.2 }

def Rect.setTopright (r : Rect) (p : Int × Int) : Rect :=
  { r with x := p.1 - r.w, y := p.2 }

def Rect.setBottomleft (r : Rect) (p : Int × Int) : Rect :=
  { r with x := p.1, y := p.2 - r.h }

def Rect.setBottomright (r : Rect) (p : Int × Int) : Rect :=
  { r with x := p.1 - r.w, y := p.2 - r.h }

def Rect.setCenter (r : Rect) (p : Int × Int) : Rect :=
  { r with x := p.1 - r.w / 2, y := p.2 - r.h / 2 }

/-- `Button.clicked` (`src/button_class.py:214-224`), one call: takes the
current tick `now` and the stored `_clicked` timer, returns the boolean
result and the new timer. Python's `if not self._clicked` is true both
for `None` and for a stored tick of `0`; `(now - t)/1000 > .5` on integer
millisecond ticks is exactly `now - t > 500`. -/
def clickedStep (now : Nat) (timer : Option Nat) : Bool × Option Nat :=
  match timer with
  | none => (false, some now)
  | some t =>
    if t = 0 then (false, some now)
    else if (500 : Int) < (now : Int) - (t : Int) then (true, none)
    else (true, some t)

/-- Run `clicked()` at each tick of `times` in order, threading the timer. -/
def clickedRun (times : List Nat) (timer : Option Nat) : List Bool :=
  match times with
  | [] => []
  | t :: ts =>
    let r := clickedStep t timer
    r.1 :: clickedRun ts r.2

/-- One channel of the derived mouse-over color
(`min(255, int(c*amount))`, `src/button_class.py:101`). -/
def hoverChannel (amount : ℚ) (c : Int) : Int :=
  min 255 (pyInt ((c : ℚ) * amount))

/-- The derived mouse-over button color: each channel of the base color
scaled by `amount` and clamped (`src/button_class.py:100-101`). -/
def hoverColor (color : Color3) (amount : ℚ) : Color3 :=
  (hoverChannel amount color.1, hoverChannel amount color.2.1,
    hoverChannel amount color.2.2)

/-- `Button.getSurf` (`src/button_class.py:161-170`): if `0 not in offset`
the backing surface is `(w+dx, h+dy)` with alpha, filled fully
transparent; otherwise it is exactly `size`, opaque, never filled here. -/
def getSurf (size offset : Int × Int) : Surface :=
  if (0 : Int) ∉ [offset.1, offset.2] then
    { w := size.1 + offset.1, h := size.2 + offset.2, alpha := true,
      fill := some (0, 0, 0, 0) }
  else
    { w := size.1, h := size.2, alpha := false, fill := none }

/-- `Button.getRect` (`src/button_class.py:173-184`): take the surface's
rect and set the selected virtual attribute to `pos`; any other
`v_attr` string leaves the rect at its default origin. -/
def getRect (surf : Surface) (pos : Int × Int) (v_attr : String) : Rect :=
  let rect := surf.getRect
  if v_attr = "center" then rect.setCenter pos
  else if v_attr = "topleft" then rect.setTopleft pos
  else if v_attr = "topright" then rect.setTopright pos
  else if v_attr = "bottomleft" then rect.setBottomleft pos
  else if v_attr = "bottomright" then rect.setBottomright pos
  else rect

/-- The keyword arguments of `Button.__init__` that the claims touch;
`none` means the caller did not pass the keyword. -/
structure Kwargs where
  pos : Option (Int × Int) := none
  align_text : Option String := none
  unselected : Option Color3 := none
  selected : Option Color3 := none
  amount : Option ℚ := none
  button_color : Option Color3 := none
  button_color_sel : Option Color3 := none
  highlight_button : Option Bool := none
  shadow_color : Option Color3 := none
  offset : Option (Int × Int) := none
  v_attr : Option String := none

/-- The `Button` instance attributes set by `__init__` (font objects,
being host-framework handles, are not modelled). `hovered` starts as the
class attribute `False`. -/
structure Button where
  id : Nat
  title : String
  tag : String
  size : Int × Int
  pos : Int × Int
  align_text : String
  font_unselected : Color3
  font_selected : Color3
  button_color : Color3
  button_color_sel : Color3
  highlight_button : Bool
  shadow_color : Color3
  offset : Int × Int
  v_attr : String
  hovered : Bool
  surf : Surface
  rect : Rect
deriving DecidableEq, Repr

/-- `Button.__init__` (`src/button_class.py:72-109`) given the id the
class counter hands out. `titleArg = none` models an omitted title, which
Python fills with the default sentinel string `'button'`; the code then
compares the argument against that same sentinel, so an explicit
`'button'` is indistinguishable from the default. -/
def Button.init (id : Nat) (titleArg : Option String) (size : Int × Int)
    (kw : Kwargs) : Button :=
  let title := titleArg.getD "button"
  let selfTitle := if title = "button" then title ++ " " ++ toString id else title
  let pos := kw.pos.getD (0, 0)
  let amount := kw.amount.getD (3 / 2)
  let button_color := kw.button_color.getD (70, 130, 180)
  let offset := kw.offset.getD (3, 2)
  let v_attr := kw.v_attr.getD "topleft"
  let surf := getSurf size offset
  { id := id
    title := selfTitle
    tag := selfTitle
    size := size
    pos := pos
    align_text := kw.align_text.getD "center"
    font_unselected := kw.unselected.getD (215, 255, 255)
    font_selected := kw.selected.getD (225, 255, 255)
    button_color := button_color
    button_color_sel := kw.button_color_sel.getD (hoverColor button_color amount)
    highlight_button := kw.highlight_button.getD false
    shadow_color := kw.shadow_color.getD (99, 184, 255)
    offset := offset
    v_attr := v_attr
    hovered := false
    surf := surf
    rect := getRect surf pos v_attr }

/-- `Button.getColors` (`src/button_class.py:146-158`). -/
def Button.getColors (b : Button) (txt : Bool) : Color3 :=
  if b.hovered then
    if txt then b.font_selected else b.button_color_sel
  else
    if txt then b.font_unselected else b.button_color

/-- `Button.makeButton` (`src/button_class.py:187-211`): the face
surf/rect, followed by a shadow surf/rect when `0 not in offset`, the
shadow's top-left at the face's top-left plus the offset. -/
def Button.makeButton (b : Button) : List (Surface × Rect) :=
  let button_surf : Surface :=
    { w := b.size.1, h := b.size.2, alpha := false,
      fill := some (withAlpha
        (if b.highlight_button then b.getColors false else b.button_color)) }
  let button_rect := button_surf.getRect
  let button := [(button_surf, button_rect)]
  if (0 : Int) ∉ [b.offset.1, b.offset.2] then
    let shadow_surf : Surface :=
      { w := b.size.1, h := b.size.2, alpha := false,
        fill := some (withAlpha b.shadow_color) }
    let shadow_rect := shadow_surf.getRect.setTopleft
      (button_rect.topleft.1 + b.offset.1, button_rect.topleft.2 + b.offset.2)
    button ++ [(shadow_surf, shadow_rect)]
  else button

/-- `Button.nextid = itertools.count().__next__`
(`src/button_class.py:68`): yield the counter, advance it by one. -/
def nextid (counter : Nat) : Nat × Nat := (counter, counter + 1)

/-- The class counter after `n` constructions (the count starts at 0). -/
def counterAfter : Nat → Nat
  | 0 => 0
  | n + 1 => (nextid (counterAfter n)).2

/-- The id assigned to the `n`-th constructed button (0-indexed). -/
def idAssigned (n : Nat) : Nat := (nextid (counterAfter n)).1

/-- C1: from a clear timer at a nonzero clock `t0`, the four-call
sequence — call 1 at `t0`, call 2 immediately after, call 3 once 600ms
have elapsed since call 1, call 4 immediately after call 3 — returns
exactly permitted, disallowed, disallowed, permitted. -/
theorem clicked_four_call_sequence (t0 : Nat) (h : 0 < t0) :
    clickedRun [t0, t0, t0 + 600, t0 + 600] none = [false, true, true, false] := by
  have ht : ¬ t0 = 0 := Nat.pos_iff_ne_zero.mp h
  have h2 : ¬ ((500 : Int) < (t0 : Int) - (t0 : Int)) := by omega
  have h3 : (500 : Int) < ((t0 + 600 : Nat) : Int) - (t0 : Int) := by
    push_cast
    omega
  simp [clickedRun, clickedStep, ht, h2, h3]

/-- Witness for C1 at `t0 = 100`. -/
theorem clicked_four_call_sequence_witness :
    clickedRun [100, 100, 700, 700] none = [false, true, true, false] :=
  clicked_four_call_sequence 100 (by decide)

/-- C2 counterexample: with the timer holding tick 100, a call at tick
600 — exactly 500ms elapsed — does not clear the timer, contradicting
the claim that at exactly 500ms the timer is cleared. -/
theorem clicked_exact_500ms_not_cleared :
    (clickedStep 600 (some 100)).2 = some 100 ∧
      (clickedStep 600 (some 100)).2 ≠ none := by
  constructor <;> decide

/-- C2 (amended): when the timer holds a nonzero timestamp `t`, the call
returns disallowed, and the timer is cleared exactly when strictly more
than 500ms have elapsed; at 500ms or less — including exactly 500ms — it
is left unchanged. -/
theorem clicked_timer_expiry (now t : Nat) (h : t ≠ 0) :
    clickedStep now (some t) =
      (true, if (500 : Int) < (now : Int) - (t : Int) then none else some t) := by
  simp only [clickedStep, h, if_false, reduceIte]
  split <;> rfl

/-- Witness for the amended C2 at `t = 100`, `now = 700`. -/
theorem clicked_timer_expiry_witness :
    clickedStep 700 (some 100) =
      (true, if (500 : Int) < (700 : Int) - (100 : Int) then none else some 100) :=
  clicked_timer_expiry 700 100 (by decide)

/-- C10: if the clock reads 0 when `clicked()` records its timestamp, the
stored tick 0 is falsy for the `not self._clicked` presence check, so the
immediately following call is also permitted: both calls return `false`. -/
theorem clicked_zero_tick_double_permit :
    clickedRun [0, 0] none = [false, false] := by decide

/-- C3: if neither offset component is zero the backing surface is
`(w+dx, h+dy)` with an alpha channel, cleared fully transparent;
otherwise — whenever either component is zero — it is exactly `(w, h)`
and opaque. -/
theorem getSurf_shadow_sizing (size offset : Int × Int) :
    ((0 : Int) ∉ [offset.1, offset.2] →
      getSurf size offset =
        { w := size.1 + offset.1, h := size.2 + offset.2, alpha := true,
          fill := some (0, 0, 0, 0) }) ∧
    ((0 : Int) ∈ [offset.1, offset.2] →
      getSurf size offset =
        { w := size.1, h := size.2, alpha := false, fill := none }) := by
  constructor <;> intro h <;> simp [getSurf, h]

/-- Witness for C3: offset `(3,2)` with size `(85,35)` gives an `(88,37)`
alpha surface; offset `(0,2)` gives exactly `(85,35)` opaque. -/
theorem getSurf_shadow_sizing_witness :
    getSurf (85, 35) (3, 2) =
      { w := 88, h := 37, alpha := true, fill := some (0, 0, 0, 0) } ∧
    getSurf (85, 35) (0, 2) =
      { w := 85, h := 35, alpha := false, fill := none } := by
  constructor
  · have h := (getSurf_shadow_sizing (85, 35) (3, 2)).1 (by decide)
    simpa using h
  · exact (getSurf_shadow_sizing (85, 35) (0, 2)).2 (by decide)

/-- C4 counterexample: passing the title `"button"` explicitly does not
keep it verbatim — the sentinel comparison auto-names it `"button 0"`. -/
theorem title_sentinel_counterexample :
    (Button.init 0 (some "button") (60, 20) {}).title ≠ "button" ∧
    (Button.init 0 (some "button") (60, 20) {}).title = "button 0" := by
  constructor <;> decide

/-- C4 (amended): an omitted title yields `"button <id>"`; a supplied
title is kept verbatim unless it equals the sentinel `"button"`, which
is treated exactly like an omitted title; `tag` always equals `title`. -/
theorem title_assignment (id : Nat) (size : Int × Int) (kw : Kwargs)
    (s : String) (hs : s ≠ "button") :
    (Button.init id none size kw).title = "button " ++ toString id ∧
    (Button.init id (some s) size kw).title = s ∧
    (Button.init id (some "button") size kw).title = "button " ++ toString id ∧
    (∀ topt : Option String,
      (Button.init id topt size kw).tag = (Button.init id topt size kw).title) := by
  have hb : ("button" : String) ++ " " = "button " := rfl
  refine ⟨?_, ?_, ?_, fun topt => ?_⟩
  · show (if ("button" : String) = "button" then "button" ++ " " ++ toString id
      else "button") = "button " ++ toString id
    rw [if_pos rfl, hb]
  · show (if s = "button" then s ++ " " ++ toString id else s) = s
    rw [if_neg hs]
  · show (if ("button" : String) = "button" then "button" ++ " " ++ toString id
      else "button") = "button " ++ toString id
    rw [if_pos rfl, hb]
  · rfl

/-- Witness for the amended C4 at id 1 and the supplied title `"Quit"`. -/
theorem title_assignment_witness :
    (Button.init 1 (some "Quit") (85, 35) {}).title = "Quit" :=
  (title_assignment 1 (85, 35) {} "Quit" (by decide)).2.1

/-- Python truncation agrees with the mathematical floor on nonnegative
rationals. -/
theorem pyInt_eq_floor (q : ℚ) (h : 0 ≤ q) : pyInt q = ⌊q⌋ :=
  if_neg (not_lt.mpr h)

/-- C5: when no explicit hover button color is passed, each channel of
the derived hover color is `min(255, floor(c*m))` of the base channel
`c` and the multiplier `m` (taken nonnegative, as any color scale is). -/
theorem hover_color_derivation (id : Nat) (topt : Option String)
    (size : Int × Int) (kw : Kwargs)
    (hsel : kw.button_color_sel = none)
    (hm : 0 ≤ kw.amount.getD (3 / 2))
    (hr : 0 ≤ (kw.button_color.getD (70, 130, 180)).1)
    (hg : 0 ≤ (kw.button_color.getD (70, 130, 180)).2.1)
    (hb : 0 ≤ (kw.button_color.getD (70, 130, 180)).2.2) :
    (Button.init id topt size kw).button_color_sel =
      (min 255 ⌊((kw.button_color.getD (70, 130, 180)).1 : ℚ) * kw.amount.getD (3 / 2)⌋,
       min 255 ⌊((kw.button_color.getD (70, 130, 180)).2.1 : ℚ) * kw.amount.getD (3 / 2)⌋,
       min 255 ⌊((kw.button_color.getD (70, 130, 180)).2.2 : ℚ) * kw.amount.getD (3 / 2)⌋) := by
  show (kw.button_color_sel.getD _) = _
  rw [hsel, Option.getD_none]
  unfold hoverColor hoverChannel
  rw [pyInt_eq_floor _ (mul_nonneg (by exact_mod_cast hr) hm),
    pyInt_eq_floor _ (mul_nonneg (by exact_mod_cast hg) hm),
    pyInt_eq_floor _ (mul_nonneg (by exact_mod_cast hb) hm)]

/-- Witness for C5 at the defaults: base `(70,130,180)`, `m = 3/2`,
giving `(105,195,255)` (270 clamped to 255). -/
theorem hover_color_derivation_witness :
    (Button.init 0 none (60, 20) {}).button_color_sel = (105, 195, 255) := by
  have h := hover_color_derivation 0 none (60, 20) {} rfl (by norm_num)
    (by norm_num) (by norm_num) (by norm_num)
  rw [h]
  norm_num

/-- The `n`-th construction receives id `n`. -/
theorem idAssigned_eq (n : Nat) : idAssigned n = n := by
  unfold idAssigned nextid
  induction n with
  | zero => rfl
  | succ k ih =>
    show counterAfter (k + 1) = k + 1
    unfold counterAfter nextid
    exact congrArg (· + 1) ih

/-- C6: the id sequence starts at 0, and ids are strictly increasing in
construction order — hence pairwise distinct and never reused. -/
theorem id_sequence (i j : Nat) (h : i < j) :
    idAssigned 0 = 0 ∧ idAssigned i < idAssigned j ∧
      idAssigned i ≠ idAssigned j := by
  rw [idAssigned_eq, idAssigned_eq, idAssigned_eq]
  exact ⟨rfl, h, Nat.ne_of_lt h⟩

/-- Witness for C6 at constructions 0 and 1. -/
theorem id_sequence_witness :
    idAssigned 0 = 0 ∧ idAssigned 0 < idAssigned 1 ∧
      idAssigned 0 ≠ idAssigned 1 :=
  id_sequence 0 1 (by decide)

/-- C7: the face pair of `makeButton` is a surface of exactly `size` at
the default-origin rect, filled with the hover button color when
`highlight_button` and hovered, and with the base button color in every
other case. -/
theorem makeButton_face (b : Button) :
    (b.makeButton).head? =
      some ({ w := b.size.1, h := b.size.2, alpha := false,
              fill := some (withAlpha
                (if b.highlight_button && b.hovered then b.button_color_sel
                 else b.button_color)) },
            { x := 0, y := 0, w := b.size.1, h := b.size.2 }) := by
  cases hb : b.highlight_button <;> cases hv : b.hovered <;>
    by_cases ho : (0 : Int) ∈ [b.offset.1, b.offset.2] <;>
      simp [Button.makeButton, Button.getColors, Surface.getRect, hb, hv, ho]

/-- C8: `makeButton` returns a second, shadow pair exactly when neither
offset component is zero; the shadow surface then has dimensions `size`,
is filled with the shadow color, and its rect's top-left is the face
rect's top-left shifted by the offset. -/
theorem makeButton_shadow (b : Button) :
    ((b.makeButton).length = 2 ↔ (0 : Int) ∉ [b.offset.1, b.offset.2]) ∧
    (∀ face shadow, b.makeButton = [face, shadow] →
      shadow.1 = { w := b.size.1, h := b.size.2, alpha := false,
                   fill := some (withAlpha b.shadow_color) } ∧
      shadow.2.topleft =
        (face.2.topleft.1 + b.offset.1, face.2.topleft.2 + b.offset.2) ∧
      shadow.2.w = b.size.1 ∧ shadow.2.h = b.size.2) := by
  by_cases ho : (0 : Int) ∈ [b.offset.1, b.offset.2]
  · constructor
    · simp [Button.makeButton, ho]
    · intro face shadow hfs
      exfalso
      have : (b.makeButton).length = 1 := by simp [Button.makeButton, ho]
      rw [hfs] at this
      simp at this
  · constructor
    · simp [Button.makeButton, ho]
    · intro face shadow hfs
      have hface : face = ((b.makeButton).head?).getD face := by
        rw [hfs]; rfl
      have hshadow : shadow = ((b.makeButton).getLast?).getD shadow := by
        rw [hfs]; rfl
      rw [hface, hshadow]
      simp [Button.makeButton, Surface.getRect, Rect.setTopleft, Rect.topleft, ho]

/-- Witness for C8: a default-constructed button (offset `(3,2)`) yields
a two-element list whose shadow sits at the face's origin plus `(3,2)`. -/
theorem makeButton_shadow_witness :
    ((Button.init 2 none (60, 20) {}).makeButton).length = 2 ∧
    ({ w := 60, h := 20, alpha := false,
       fill := some (99, 184, 255, 255) } : Surface) =
      { w := (Button.init 2 none (60, 20) {}).size.1,
        h := (Button.init 2 none (60, 20) {}).size.2, alpha := false,
        fill := some (withAlpha (Button.init 2 none (60, 20) {}).shadow_color) } ∧
    (Rect.topleft { x := 3, y := 2, w := 60, h := 20 }) = (3, 2) := by
  refine ⟨(makeButton_shadow (Button.init 2 none (60, 20) {})).1.mpr (by decide), ?_, by decide⟩
  have h := ((makeButton_shadow (Button.init 2 none (60, 20) {})).2
    ({ w := 60, h := 20, alpha := false, fill := some (70, 130, 180, 255) },
      { x := 0, y := 0, w := 60, h := 20 })
    ({ w := 60, h := 20, alpha := false, fill := some (99, 184, 255, 255) },
      { x := 3, y := 2, w := 60, h := 20 }) (by decide)).1
  exact h

/-- C9: placement supports exactly the anchors center, topleft, topright,
bottomleft, bottomright — each sets the corresponding anchor point of the
rect to `pos` — and any other anchor string leaves the rect at its
default origin, silently. -/
theorem getRect_anchor_placement (s : Surface) (p : Int × Int) :
    (getRect s p "center").center = p ∧
    (getRect s p "topleft").topleft = p ∧
    (getRect s p "topright").topright = p ∧
    (getRect s p "bottomleft").bottomleft = p ∧
    (getRect s p "bottomright").bottomright = p ∧
    ∀ v : String,
      v ∉ ["center", "topleft", "topright", "bottomleft", "bottomright"] →
        getRect s p v = { x := 0, y := 0, w := s.w, h := s.h } := by
  refine ⟨?_, ?_, ?_, ?_, ?_, fun v hv => ?_⟩
  · simp [getRect, Surface.getRect, Rect.setCenter, Rect.center]
  · simp [getRect, Surface.getRect, Rect.setTopleft, Rect.topleft]
  · simp [getRect, Surface.getRect, Rect.setTopright, Rect.topright]
  · simp [getRect, Surface.getRect, Rect.setBottomleft, Rect.bottomleft]
  · simp [getRect, Surface.getRect, Rect.setBottomright, Rect.bottomright]
  · simp only [List.mem_cons, List.not_mem_nil, or_false, not_or] at hv
    obtain ⟨h1, h2, h3, h4, h5⟩ := hv
    simp [getRect, Surface.getRect, h1, h2, h3, h4, h5]

/-- Witness for C9: the unrecognized anchor `"middle"` leaves an
`(85,35)` surface's rect at the origin. -/
theorem getRect_anchor_placement_witness :
    getRect { w := 85, h := 35, alpha := false, fill := none } (30, 30) "middle" =
      { x := 0, y := 0, w := 85, h := 35 } :=
  (getRect_anchor_placement
    { w := 85, h := 35, alpha := false, fill := none } (30, 30)).2.2.2.2.2
    "middle" (by decide)

end ButtonClass
